import Mathlib

set_option maxRecDepth 4000
set_option maxHeartbeats 1000000

/-!
Verification development for the heuristic media-verification pipeline of the
Pralay backend (Pralay/ai_verification_service.py and
Pralay/video_verification_service.py).

The pipeline's pure decision logic (keyword matching, candidate ranking,
threshold gates, the compatibility graph, the verification cache) is embedded
directly.  Results of external collaborators (the OpenCV primitives: image
decoding, HSV masking, Sobel filtering, contour finding) are modelled as
abstract inputs: a frame is represented by the collaborator outputs the Python
code reads from it, and every arithmetic step performed in Python on those
outputs is reproduced exactly.
-/

/-! ### String primitives

Python `str.lower()` and the `needle in haystack` substring test, used by the
keyword-matching stages. -/

/-- Python `str.lower()` on the ASCII strings used by the pipeline. -/
def toLowerStr (s : String) : String :=
  String.mk (s.data.map Char.toLower)

/-- `leadsChars needle hay` is true when `needle` is an initial segment of `hay`. -/
def leadsChars : List Char → List Char → Bool
  | [], _ => true
  | _ :: _, [] => false
  | c :: cs, d :: ds => c == d && leadsChars cs ds

/-- `hasSubChars needle hay = true` iff `needle` occurs contiguously in `hay`:
the Python substring test `needle in hay`. -/
def hasSubChars (needle : List Char) : List Char → Bool
  | [] => leadsChars needle []
  | c :: t => leadsChars needle (c :: t) || hasSubChars needle t

/-- Python `needle in hay` on strings. -/
def strHasSub (hay needle : String) : Bool :=
  hasSubChars needle.data hay.data

/-! ### Category taxonomy and the compatibility graph

`AIVerificationService.is_hazard_type_compatible` (image path) and
`VideoVerificationService.is_hazard_type_compatible` (video path). -/

/-- The fixed 9-value hazard taxonomy (`self.hazard_types` in both services). -/
def hazardTypes : List String :=
  ["tsunami", "storm-surge", "high-waves", "flooding",
   "debris", "pollution", "erosion", "wildlife", "other"]

/-- The four compatible hazard-type groups shared by both services
(water_hazards, weather_hazards, environmental_hazards, marine_hazards). -/
def compatGroups : List (List String) :=
  [["flooding", "storm-surge", "high-waves", "tsunami"],
   ["storm-surge", "tsunami", "high-waves"],
   ["pollution", "debris", "erosion"],
   ["wildlife", "pollution", "debris"]]

/-- The five similar pairs shared by both services. -/
def similarPairs : List (String × String) :=
  [("flooding", "storm-surge"), ("storm-surge", "high-waves"),
   ("high-waves", "tsunami"), ("pollution", "debris"), ("erosion", "debris")]

/-- The 7-label ocean-related fallback set (image path only). -/
def oceanRelated : List String :=
  ["flooding", "storm-surge", "high-waves", "tsunami", "pollution", "debris", "erosion"]

/-- `VideoVerificationService.is_hazard_type_compatible`: exact match, then the
four groups, then the five similar pairs; no further fallback. -/
def videoCompatible (selectedType detectedType : String) : Bool :=
  selectedType == detectedType
  || compatGroups.any (fun g => g.contains selectedType && g.contains detectedType)
  || similarPairs.any (fun p =>
       (selectedType == p.1 && detectedType == p.2)
       || (selectedType == p.2 && detectedType == p.1))

/-- `AIVerificationService.is_hazard_type_compatible`: the same checks as the
video path, plus the final ocean-related leniency fallback. -/
def imageCompatible (selectedType detectedType : String) : Bool :=
  selectedType == detectedType
  || compatGroups.any (fun g => g.contains selectedType && g.contains detectedType)
  || similarPairs.any (fun p =>
       (selectedType == p.1 && detectedType == p.2)
       || (selectedType == p.2 && detectedType == p.1))
  || (oceanRelated.contains selectedType && oceanRelated.contains detectedType)

/-! ### Hazard-type classifier

`AIVerificationService.detect_hazard_type` (image path) and
`VideoVerificationService.detect_hazard_type_from_video` (video path).
The image metrics (Laplacian variance, saturation mean/std, dimensions) are
the outputs of `compute_image_metrics`; the per-frame scores of the video path
are the outputs of `analyze_frame_for_ocean_content` /
`analyze_hazard_indicators`.  Both are abstract inputs here. -/

/-- The scalar metrics of `compute_image_metrics` that the image-path
classifier and AI detector read. -/
structure Metrics where
  laplacianVariance : ℚ
  meanSaturation : ℚ
  saturationStd : ℚ
  width : ℕ
  height : ℕ
deriving DecidableEq

/-- The keyword-to-category mapping shared verbatim by both classifiers
(`keyword_mapping`), in Python dict insertion order. -/
def hazardKeywordMap : List (String × List String) :=
  [("tsunami", ["tsunami", "tidal", "seismic", "evacuation"]),
   ("storm-surge", ["storm", "surge", "hurricane", "cyclone", "typhoon"]),
   ("high-waves", ["wave", "rough", "swell", "surf"]),
   ("flooding", ["flood", "water", "inundation", "flooded"]),
   ("debris", ["debris", "trash", "litter", "waste"]),
   ("pollution", ["oil", "spill", "pollution", "contamination"]),
   ("erosion", ["erosion", "coast", "cliff", "beach loss"]),
   ("wildlife", ["wildlife", "fish", "animal", "marine life"])]

/-- One step of the keyword stage: if any keyword of the entry occurs in the
text, either append the category at confidence 0.8 or boost an existing
candidate by +0.2 capped at 0.95 (the parallel `detected_types`/`confidences`
lists are modelled as a single list of pairs). -/
def kwAdjust (text : String) (acc : List (String × ℚ)) (entry : String × List String) :
    List (String × ℚ) :=
  if entry.2.any (fun k => strHasSub text k) then
    if acc.any (fun p => p.1 == entry.1) then
      acc.map (fun p => if p.1 == entry.1 then (p.1, min 0.95 (p.2 + 0.2)) else p)
    else acc ++ [(entry.1, 0.8)]
  else acc

/-- Image-path content-based candidates: the five independent threshold rules
of `detect_hazard_type`, in source order. -/
def contentCandidatesImg (m : Metrics) : List (String × ℚ) :=
  (if 120 < m.laplacianVariance ∧ 0.12 < m.saturationStd
     then [(("storm-surge" : String), (0.7 : ℚ))] else [])
  ++ (if 100 < m.laplacianVariance then [(("high-waves" : String), (0.6 : ℚ))] else [])
  ++ (if 80 < m.laplacianVariance ∧ m.meanSaturation < 0.5
     then [(("flooding" : String), (0.5 : ℚ))] else [])
  ++ (if 180 < m.laplacianVariance then [(("tsunami" : String), (0.8 : ℚ))] else [])
  ++ (if 160 < m.laplacianVariance then [(("debris" : String), (0.7 : ℚ))] else [])

/-- The full image-path candidate list: content candidates, then the keyword
stage over `lower(filename + " " + description)`, then the default
`("other", 0.3)` when nothing fired. -/
def candidatesImg (m : Metrics) (filename description : String) : List (String × ℚ) :=
  let text := toLowerStr (filename ++ " " ++ description)
  let cand := hazardKeywordMap.foldl (kwAdjust text) (contentCandidatesImg m)
  if cand.isEmpty then [(("other" : String), (0.3 : ℚ))] else cand

/-- Ascending comparison on candidate indices: by confidence, ties by index.
`np.argsort` runs an insertion sort on arrays shorter than 16 elements (the
candidate list has at most 13), i.e. a stable ascending sort, which orders
equal confidences by ascending index. -/
def rankLE (confs : List ℚ) (i j : ℕ) : Prop :=
  confs.getD i 0 < confs.getD j 0 ∨ (confs.getD i 0 = confs.getD j 0 ∧ i ≤ j)

instance (confs : List ℚ) : DecidableRel (rankLE confs) := fun i j => by
  unfold rankLE; infer_instance

instance (confs : List ℚ) : IsTotal ℕ (rankLE confs) := by
  constructor
  intro i j
  rcases lt_trichotomy (confs.getD i 0) (confs.getD j 0) with h | h | h
  · exact Or.inl (Or.inl h)
  · rcases Nat.le_total i j with hij | hij
    · exact Or.inl (Or.inr ⟨h, hij⟩)
    · exact Or.inr (Or.inr ⟨h.symm, hij⟩)
  · exact Or.inr (Or.inl h)

instance (confs : List ℚ) : IsTrans ℕ (rankLE confs) := by
  constructor
  intro i j k hij hjk
  rcases hij with h1 | ⟨e1, l1⟩
  · rcases hjk with h2 | ⟨e2, _⟩
    · exact Or.inl (h1.trans h2)
    · exact Or.inl (e2 ▸ h1)
  · rcases hjk with h2 | ⟨e2, l2⟩
    · exact Or.inl (e1 ▸ h2)
    · exact Or.inr ⟨e1.trans e2, l1.trans l2⟩

/-- `np.argsort(confs)[::-1]`: indices sorted by ascending confidence
(stable), then reversed. -/
def npArgsortDesc (confs : List ℚ) : List ℕ :=
  (List.insertionSort (rankLE confs) (List.range confs.length)).reverse

/-- `top_predictions`: the first 3 indices of the descending ranking, each
rendered as a (hazard_type, confidence) pair. -/
def topPredictionsOf (cand : List (String × ℚ)) : List (String × ℚ) :=
  ((npArgsortDesc (cand.map Prod.snd)).take 3).map
    (fun i => ((cand.map Prod.fst).getD i "other", (cand.map Prod.snd).getD i 0))

/-- Result record of both hazard-type classifiers. -/
structure HazardPrediction where
  detectedType : String
  confidence : ℚ
  topPredictions : List (String × ℚ)
deriving DecidableEq

/-- `AIVerificationService.detect_hazard_type`: builds the candidate list and
returns `detected_types[0]` / `confidences[0]` (the first-inserted candidate)
together with the confidence-sorted `top_predictions`. -/
def detectHazardTypeImg (m : Metrics) (filename description : String) : HazardPrediction :=
  let cand := candidatesImg m filename description
  { detectedType := (cand.headD ("other", 0.3)).1
    confidence := (cand.headD ("other", 0.3)).2
    topPredictions := topPredictionsOf cand }

/-- One video frame, represented by the outputs the Python code reads from the
OpenCV analyses: `analyze_frame_for_ocean_content` (water confidence /
has_ocean_content) and `analyze_hazard_indicators` (hazard score /
has_hazard_indicators). -/
structure AbsFrame where
  waterConfidence : ℚ
  hazardScore : ℚ
  hasOceanContent : Bool
  hazardIndicated : Bool
deriving DecidableEq

/-- `np.mean` of a rational list, 0 for the empty list (matching the
`if ocean_scores else 0` guard). -/
def avgQ (l : List ℚ) : ℚ :=
  if l.isEmpty then 0 else l.sum / l.length

/-- Video-path content candidates: the if/elif ladder over the mean ocean and
hazard scores (at most one candidate fires). -/
def contentCandidatesVid (avgOcean avgHazard : ℚ) : List (String × ℚ) :=
  if 0.7 < avgOcean ∧ 0.6 < avgHazard then [(("storm-surge" : String), (0.8 : ℚ))]
  else if 0.6 < avgOcean ∧ 0.4 < avgHazard then [(("high-waves" : String), (0.7 : ℚ))]
  else if 0.8 < avgOcean ∧ 0.7 < avgHazard then [(("tsunami" : String), (0.9 : ℚ))]
  else if 0.4 < avgOcean ∧ 0.5 < avgHazard then [(("flooding" : String), (0.6 : ℚ))]
  else []

/-- The full video-path candidate list (for a nonempty frame list). -/
def candidatesVid (frames : List AbsFrame) (filename description : String) :
    List (String × ℚ) :=
  let avgOcean := avgQ (frames.map AbsFrame.waterConfidence)
  let avgHazard := avgQ (frames.map AbsFrame.hazardScore)
  let text := toLowerStr (filename ++ " " ++ description)
  let cand := hazardKeywordMap.foldl (kwAdjust text) (contentCandidatesVid avgOcean avgHazard)
  if cand.isEmpty then [(("other" : String), (0.3 : ℚ))] else cand

/-- Result record of the video classifier (additionally exposes the mean
scores as `ocean_score` / `hazard_score`). -/
structure VideoHazardPrediction where
  detectedType : String
  confidence : ℚ
  topPredictions : List (String × ℚ)
  oceanScore : ℚ
  hazardScore : ℚ
deriving DecidableEq

/-- `VideoVerificationService.detect_hazard_type_from_video`: early default
for an empty frame list (its dict carries no score fields; 0 here), otherwise
the candidate pipeline with `detected_types[0]` / `confidences[0]` returned. -/
def detectHazardTypeVid (frames : List AbsFrame) (filename description : String) :
    VideoHazardPrediction :=
  if frames.isEmpty then
    { detectedType := "other", confidence := 0.3,
      topPredictions := [(("other" : String), (0.3 : ℚ))], oceanScore := 0, hazardScore := 0 }
  else
    let cand := candidatesVid frames filename description
    { detectedType := (cand.headD ("other", 0.3)).1
      confidence := (cand.headD ("other", 0.3)).2
      topPredictions := topPredictionsOf cand
      oceanScore := avgQ (frames.map AbsFrame.waterConfidence)
      hazardScore := avgQ (frames.map AbsFrame.hazardScore) }

/-! ### AI-generation detector and the image orchestrator

`AIVerificationService.detect_ai_generated_image` and
`AIVerificationService.verify_image`.  The two cv2-heavy boolean gates
(`has_water_content`, `has_hazard_indicators`) are carried as abstract
analysis outcomes on the decoded image. -/

/-- The fixed AI-related filename pattern set. -/
def aiFilenamePatterns : List String :=
  ["ai_generated", "dalle", "midjourney", "stable_diffusion", "generated"]

/-- Result record of `detect_ai_generated_image`. -/
structure AIDetection where
  isRealImage : Bool
  confidence : ℚ
  aiScore : ℚ
deriving DecidableEq

/-- `detect_ai_generated_image`: the additive heuristic score (edge variance,
saturation spread, square power-of-64 dimensions, filename patterns),
`is_real_image = not (ai_score > 0.3)`, `confidence = min(0.9, 0.5 + ai_score)`. -/
def detectAIGeneratedImage (m : Metrics) (filename : String) : AIDetection :=
  let s1 : ℚ := if m.laplacianVariance < 30 then 0.2
    else if 2000 < m.laplacianVariance then 0.15 else 0
  let s2 : ℚ := if m.saturationStd < 0.05 then 0.1 else 0
  let s3 : ℚ := if m.width = m.height ∧ m.width % 64 = 0 then 0.1 else 0
  let s4 : ℚ := if filename ≠ ""
      ∧ aiFilenamePatterns.any (fun p => strHasSub (toLowerStr filename) p) = true
    then 0.3 else 0
  let aiScore := s1 + s2 + s3 + s4
  { isRealImage := if 0.3 < aiScore then false else true
    confidence := min 0.9 (0.5 + aiScore)
    aiScore := aiScore }

/-- A successfully decoded image, as the orchestrator consumes it: its
`compute_image_metrics` scalars plus the boolean outcomes of the two
cv2-backed frame analyses it gates on. -/
structure ImageFeatures where
  metrics : Metrics
  waterSignificant : Bool
  hazardIndicated : Bool
deriving DecidableEq

/-- Verdict record of `verify_image` (status, message, overall confidence). -/
structure ImgVerdict where
  status : String
  message : String
  confidence : ℚ
deriving DecidableEq

def msgAIGenerated : String := "AI-generated image detected - only real photos are accepted"

def msgNoWater : String :=
  "No significant water content detected - please upload images with water/ocean scenes"

def msgNoHazard : String :=
  "No hazard indicators detected - please upload images showing actual flood damage, destruction, or emergency situations"

def msgTypeMismatch (detectedType : String) : String :=
  "Image content does not match selected hazard type. Detected: " ++ detectedType

def msgLowConfidence : String := "Low confidence in hazard detection - please check image quality"

def msgVerified : String := "Image verified successfully"

/-- `AIVerificationService.verify_image`: decode failure is the `none` case;
otherwise the five-gate if/elif chain (AI-generation, water content, hazard
indicators, category-hint compatibility with Python string truthiness, the 0.4
confidence floor), with the overall confidence always the mean of the hazard
and AI confidences. -/
def verifyImage (img : Option ImageFeatures) (selectedHazardType : Option String)
    (description filename : String) : ImgVerdict :=
  match img with
  | none => { status := "error", message := "Failed to process image", confidence := 0 }
  | some f =>
    let ai := detectAIGeneratedImage f.metrics filename
    let hd := detectHazardTypeImg f.metrics filename description
    let hintMismatch : Bool :=
      match selectedHazardType with
      | none => false
      | some s => (s != "") && !(imageCompatible s hd.detectedType)
    let sm : String × String :=
      if !ai.isRealImage then ("failed", msgAIGenerated)
      else if !f.waterSignificant then ("failed", msgNoWater)
      else if !f.hazardIndicated then ("failed", msgNoHazard)
      else if hintMismatch then ("failed", msgTypeMismatch hd.detectedType)
      else if hd.confidence < 0.4 then ("failed", msgLowConfidence)
      else ("verified", msgVerified)
    { status := sm.1, message := sm.2, confidence := (hd.confidence + ai.confidence) / 2 }

/-! ### Video orchestrator: keyword fallback, full-path decision, cache

`VideoVerificationService.verify_video`.  The candidate frames a buffer would
decode to, and the verdict `_quick_verify_video` would produce (it depends on
the external container probe), are abstract inputs of the environment; the
cache, the cache key, the keyword fallback and the full-path decision ladder
are embedded.  A `None` category hint reaches `verify_video` as the empty
string here (Python renders `None` into the key and treats both as falsy). -/

/-- Verdict record of `verify_video` with the fields the claims read (the
nested `hazard_detection` scores are flattened; paths that omit a field in the
Python dict set its default here). -/
structure VidVerdict where
  status : String
  message : String
  confidence : ℚ
  detectedType : String
  oceanScore : ℚ
  hazardScore : ℚ
  fallback : Bool
  quickMode : Bool
  cached : Bool
deriving DecidableEq

/-- The eight ocean keywords of the keyword fallback. -/
def oceanKeywords : List String :=
  ["water", "ocean", "sea", "wave", "beach", "coast", "marine", "tide"]

/-- The eight hazard keywords of the keyword fallback. -/
def hazardKeywords : List String :=
  ["storm", "flood", "tsunami", "surge", "high", "rough", "danger", "warning"]

/-- Fraction of the keyword list occurring in the text:
`sum(1 for keyword in keywords if keyword in text) / len(keywords)`. -/
def keywordScore (keywords : List String) (text : String) : ℚ :=
  ((keywords.filter fun k => strHasSub text k).length : ℚ) / (keywords.length : ℚ)

/-- The keyword-based fallback of `verify_video` when frame extraction yields
no frames: verified with `fallback=true` when either score exceeds 0.1,
failed otherwise (the failed dict carries no score fields; the computed
values are kept here). -/
def keywordFallbackVerdict (selectedHazardType filename description : String) : VidVerdict :=
  let text := toLowerStr (filename ++ " " ++ description)
  let oceanScore := keywordScore oceanKeywords text
  let hazardScore := keywordScore hazardKeywords text
  if 0.1 < oceanScore ∨ 0.1 < hazardScore then
    { status := "verified", message := "Video verified (keyword-based fallback)"
      confidence := min 0.7 ((oceanScore + hazardScore) * 0.5)
      detectedType := if selectedHazardType ≠ "" then selectedHazardType else "other"
      oceanScore := oceanScore, hazardScore := hazardScore
      fallback := true, quickMode := false, cached := false }
  else
    { status := "failed"
      message := "Could not extract frames from video and no ocean hazard keywords found"
      confidence := 0, detectedType := "other"
      oceanScore := oceanScore, hazardScore := hazardScore
      fallback := false, quickMode := false, cached := false }

/-- The full-path decision of `verify_video` over the extracted frames:
per-frame aggregation, the classifier, the four-gate if/elif ladder, and the
three-way mean confidence. -/
def fullVideoVerdict (frames : List AbsFrame) (selectedHazardType filename description : String) :
    VidVerdict :=
  let oceanFrames := (frames.filter AbsFrame.hasOceanContent).length
  let hazardFrames := (frames.filter AbsFrame.hazardIndicated).length
  let oceanPercentage : ℚ := (oceanFrames : ℚ) / (frames.length : ℚ)
  let hazardPercentage : ℚ := (hazardFrames : ℚ) / (frames.length : ℚ)
  let hd := detectHazardTypeVid frames filename description
  let hintMismatch : Bool :=
    (selectedHazardType != "") && !(videoCompatible selectedHazardType hd.detectedType)
  let sm : String × String :=
    if oceanPercentage < 0.1 then
      ("failed", "Insufficient ocean content detected - please upload videos showing water/ocean scenes")
    else if hazardPercentage < 0.05 then
      ("failed", "No significant hazard indicators detected - please upload videos showing actual hazard conditions")
    else if hintMismatch then
      ("failed", "Video content does not match selected hazard type. Detected: " ++ hd.detectedType)
    else if hd.confidence < 0.2 then
      ("failed", "Low confidence in hazard detection - please check video quality and content")
    else ("verified", "Video verified successfully")
  { status := sm.1, message := sm.2
    confidence := (hd.confidence + hd.oceanScore + hd.hazardScore) / 3
    detectedType := hd.detectedType
    oceanScore := hd.oceanScore, hazardScore := hd.hazardScore
    fallback := false, quickMode := false, cached := false }

/-- `self.cache_max_size = 50`. -/
def cacheMaxSize : ℕ := 50

/-- Python dict assignment `cache[key] = v` on an insertion-ordered
association list: replace in place when the key exists, append otherwise. -/
def dictStore (cache : List (String × VidVerdict)) (key : String) (v : VidVerdict) :
    List (String × VidVerdict) :=
  if cache.any (fun p => p.1 == key) then
    cache.map (fun p => if p.1 == key then (key, v) else p)
  else cache ++ [(key, v)]

/-- The caching step of `verify_video`: when at capacity, delete
`next(iter(cache))` — the earliest-inserted key, the head of the insertion
order — then store. -/
def cacheStore (cache : List (String × VidVerdict)) (key : String) (v : VidVerdict) :
    List (String × VidVerdict) :=
  dictStore (if cacheMaxSize ≤ cache.length then cache.tail else cache) key v

/-- Environment of one `verify_video` call on a fixed buffer: the frames
`extract_key_frames` would return for it, and the verdict
`_quick_verify_video` would produce for it (both rest on the external
container decoder). -/
structure VideoEnv where
  frames : List AbsFrame
  quickResult : VidVerdict
deriving DecidableEq

/-- The cache key `f"{video_hash}_{selected_hazard_type}_{filename}"` (no
quick-mode component). -/
def videoCacheKey (videoHash selectedHazardType filename : String) : String :=
  videoHash ++ "_" ++ selectedHazardType ++ "_" ++ filename

/-- One `verify_video` call as a transition on the verification cache.
Returns (verdict, new cache, whether `extract_key_frames` was invoked).
Cache hits return a copy with `cached=true` before any mode dispatch; quick
mode caches its result without frame extraction; the full path extracts
frames, falls back to the (uncached) keyword verdict when none decode, and
caches its result otherwise. -/
def verifyVideoStep (env : VideoEnv) (cache : List (String × VidVerdict))
    (videoHash selectedHazardType description filename : String) (quickMode : Bool) :
    VidVerdict × List (String × VidVerdict) × Bool :=
  let cacheKey := videoCacheKey videoHash selectedHazardType filename
  match List.lookup cacheKey cache with
  | some v => ({ v with cached := true }, cache, false)
  | none =>
    if quickMode then
      (env.quickResult, cacheStore cache cacheKey env.quickResult, false)
    else if env.frames.isEmpty then
      (keywordFallbackVerdict selectedHazardType filename description, cache, true)
    else
      let r := fullVideoVerdict env.frames selectedHazardType filename description
      (r, cacheStore cache cacheKey r, true)

/-! ### Water/ocean content analyzer (image path)

`AIVerificationService.analyze_water_content`.  A decoded frame is
represented by the collaborator outputs the Python code reads: the unioned
HSV water mask (`cv2.inRange`/`cv2.bitwise_or`), the two Sobel gradient
grids (`cv2.Sobel`), the grayscale grid (`cv2.cvtColor`), and the external
contour areas of the mask (`cv2.findContours`/`cv2.contourArea`).  The
arithmetic performed in Python on those outputs — the pixel counts, the
arctan2 direction histogram, the magnitude threshold, the ratio, variance and
confidence formulas, and the coherence guard — is embedded over ℝ. -/

section WaterAnalyzer

open scoped Classical

variable {hgt wdt : ℕ}

/-- A decoded frame of positive dimensions (hgt+1) × (wdt+1), as the water
analyzer consumes it. -/
structure FrameData (hgt wdt : ℕ) where
  waterMask : Fin (hgt + 1) × Fin (wdt + 1) → Bool
  sobelX : Fin (hgt + 1) × Fin (wdt + 1) → ℚ
  sobelY : Fin (hgt + 1) × Fin (wdt + 1) → ℚ
  gray : Fin (hgt + 1) × Fin (wdt + 1) → ℚ
  contourAreas : List ℚ

/-- `total_pixels = image.shape[0] * image.shape[1]`. -/
def totalPixels (hgt wdt : ℕ) : ℕ := (hgt + 1) * (wdt + 1)

/-- `water_pixels = np.sum(water_mask > 0)`. -/
def waterPixels (f : FrameData hgt wdt) : ℕ :=
  (Finset.univ.filter fun p => f.waterMask p = true).card

/-- `water_percentage = water_pixels / total_pixels`. -/
noncomputable def waterPercentage (f : FrameData hgt wdt) : ℝ :=
  (waterPixels f : ℝ) / (totalPixels hgt wdt : ℝ)

/-- `edge_magnitude = np.sqrt(sobel_x**2 + sobel_y**2)` at one pixel. -/
noncomputable def edgeMagnitude (f : FrameData hgt wdt) (p : Fin (hgt + 1) × Fin (wdt + 1)) : ℝ :=
  Real.sqrt ((f.sobelX p : ℝ) ^ 2 + (f.sobelY p : ℝ) ^ 2)

/-- `edge_direction = np.arctan2(sobel_y, sobel_x)` at one pixel
(`arctan2(y, x)` is the argument of the complex number `x + i y`). -/
noncomputable def edgeDirection (f : FrameData hgt wdt) (p : Fin (hgt + 1) × Fin (wdt + 1)) : ℝ :=
  Complex.arg ⟨(f.sobelX p : ℝ), (f.sobelY p : ℝ)⟩

/-- `horizontal_edges = np.sum((edge_direction > -0.3) & (edge_direction < 0.3))`:
a count over all pixels, with no magnitude condition. -/
noncomputable def horizontalEdges (f : FrameData hgt wdt) : ℕ :=
  (Finset.univ.filter fun p =>
    -0.3 < edgeDirection f p ∧ edgeDirection f p < 0.3).card

/-- `vertical_edges = np.sum((edge_direction > 1.4) | (edge_direction < -1.4))`. -/
noncomputable def verticalEdges (f : FrameData hgt wdt) : ℕ :=
  (Finset.univ.filter fun p =>
    1.4 < edgeDirection f p ∨ edgeDirection f p < -1.4).card

/-- `diagonal_edges`: the two diagonal direction bands, summed. -/
noncomputable def diagonalEdges (f : FrameData hgt wdt) : ℕ :=
  (Finset.univ.filter fun p =>
    0.3 < edgeDirection f p ∧ edgeDirection f p < 1.4).card
  + (Finset.univ.filter fun p =>
    -1.4 < edgeDirection f p ∧ edgeDirection f p < -0.3).card

/-- `total_edges = np.sum(edge_magnitude > 30)`: the only magnitude-thresholded
count. -/
noncomputable def totalEdges (f : FrameData hgt wdt) : ℕ :=
  (Finset.univ.filter fun p => 30 < edgeMagnitude f p).card

/-- `water_edges = horizontal_edges + vertical_edges * 0.8 + diagonal_edges * 0.6`. -/
noncomputable def waterEdges (f : FrameData hgt wdt) : ℝ :=
  (horizontalEdges f : ℝ) + (verticalEdges f : ℝ) * 0.8 + (diagonalEdges f : ℝ) * 0.6

/-- `water_edge_ratio = water_edges / total_edges if total_edges > 0 else 0`. -/
noncomputable def waterEdgeRatio (f : FrameData hgt wdt) : ℝ :=
  if 0 < totalEdges f then waterEdges f / (totalEdges f : ℝ) else 0

/-- Mean of the grayscale grid. -/
noncomputable def grayMean (f : FrameData hgt wdt) : ℝ :=
  (∑ p, (f.gray p : ℝ)) / (totalPixels hgt wdt : ℝ)

/-- `texture_variance = np.var(gray)`: the population variance of the
grayscale grid. -/
noncomputable def textureVariance (f : FrameData hgt wdt) : ℝ :=
  (∑ p, ((f.gray p : ℝ) - grayMean f) ^ 2) / (totalPixels hgt wdt : ℝ)

/-- The pre-guard confidence:
`water_percentage * 0.4 + min(water_edge_ratio * 1.5, 1.0) * 0.35 +
 min(texture_variance / 1000, 1.0) * 0.25`. -/
noncomputable def waterConfidencePre (f : FrameData hgt wdt) : ℝ :=
  waterPercentage f * 0.4
  + min (waterEdgeRatio f * 1.5) 1 * 0.35
  + min (textureVariance f / 1000) 1 * 0.25

/-- The coherence guard: when `water_percentage > 0.1` and the mask has
contours, a largest contour below 5% of the frame multiplies the confidence
by 0.3. -/
noncomputable def waterConfidence (f : FrameData hgt wdt) : ℝ :=
  if 0.1 < waterPercentage f then
    match f.contourAreas with
    | [] => waterConfidencePre f
    | a :: rest =>
      if ((rest.foldl max a : ℚ) : ℝ) / (totalPixels hgt wdt : ℝ) < 0.05 then
        waterConfidencePre f * 0.3
      else waterConfidencePre f
  else waterConfidencePre f

/-- The `WaterAnalysis` record returned by `analyze_water_content`. -/
structure WaterAnalysis where
  waterPercentage : ℝ
  waterConfidence : ℝ
  waterEdgeRatio : ℝ
  horizontalEdgeRatio : ℝ
  textureVariance : ℝ
  hasSignificantWater : Prop

/-- `analyze_water_content` on a successfully analyzed frame. -/
noncomputable def analyzeWaterContent (f : FrameData hgt wdt) : WaterAnalysis :=
  { waterPercentage := waterPercentage f
    waterConfidence := waterConfidence f
    waterEdgeRatio := waterEdgeRatio f
    horizontalEdgeRatio :=
      if 0 < totalEdges f then (horizontalEdges f : ℝ) / (totalEdges f : ℝ) else 0
    textureVariance := textureVariance f
    hasSignificantWater := 0.4 < waterPercentage f ∧ 0.75 < waterConfidence f }

/-- The all-zero `WaterAnalysis` returned when any exception occurs during the
analysis (the `except` block). -/
def analyzeWaterContentOnError : WaterAnalysis :=
  { waterPercentage := 0, waterConfidence := 0, waterEdgeRatio := 0
    horizontalEdgeRatio := 0, textureVariance := 0, hasSignificantWater := False }

/-- The all-zero 1×1 frame: both gradients vanish at the single pixel. -/
def zeroFrame : FrameData 0 0 :=
  { waterMask := fun _ => false, sobelX := fun _ => 0, sobelY := fun _ => 0
    gray := fun _ => 0, contourAreas := [] }

/-- A 1×1 frame with a single strong horizontal gradient
(sobel_x = 100, sobel_y = 0 at the only pixel). -/
def gradFrame : FrameData 0 0 :=
  { waterMask := fun _ => false, sobelX := fun _ => 100, sobelY := fun _ => 0
    gray := fun _ => 0, contourAreas := [] }

end WaterAnalyzer

/-! ### Concrete inputs used by counterexamples and witnesses -/

/-- Metrics with Laplacian variance 200, mean saturation 0.6, saturation std
0.05: exactly the high-waves, tsunami and debris content rules fire. -/
def cexMetrics : Metrics :=
  { laplacianVariance := 200, meanSaturation := 3/5, saturationStd := 1/20
    width := 224, height := 224 }

/-- Metrics of an over-smooth image (Laplacian variance 20). -/
def smoothMetrics : Metrics :=
  { laplacianVariance := 20, meanSaturation := 1/5, saturationStd := 1/5
    width := 100, height := 50 }

/-- Decoded-image features built on `smoothMetrics` with both boolean gates
passing. -/
def smoothFeatures : ImageFeatures :=
  { metrics := smoothMetrics, waterSignificant := true, hazardIndicated := true }

/-- A concrete verdict used to populate sample caches and environments. -/
def sampleVerdict : VidVerdict :=
  { status := "verified", message := "Video verified (quick mode)", confidence := 1/2
    detectedType := "other", oceanScore := 1/8, hazardScore := 1/8
    fallback := false, quickMode := true, cached := false }

/-- A video environment whose buffer decodes to no frames. -/
def sampleEnv : VideoEnv :=
  { frames := [], quickResult := sampleVerdict }

/-- A concrete video frame whose analyses all score 1/2 and pass. -/
def sampleFrame : AbsFrame :=
  { waterConfidence := 1/2, hazardScore := 1/2, hasOceanContent := true
    hazardIndicated := true }

/-! ## Theorems -/

/-- C5: the image-path compatibility check is strictly more permissive than
the video-path check: over the 9-category taxonomy, every video-compatible
pair is image-compatible, and the pair (flooding, pollution) — both in the
7-label ocean-related set — is accepted by the image path and rejected by the
video path. -/
theorem image_compat_strictly_more_permissive :
    (hazardTypes.all fun s => hazardTypes.all fun d =>
      !(videoCompatible s d) || imageCompatible s d) = true
    ∧ imageCompatible "flooding" "pollution" = true
    ∧ videoCompatible "flooding" "pollution" = false := by
  exact ⟨by decide, by decide, by decide⟩

/-- Evaluation of the keyword fallback on filename "storm_flood_warning.mp4"
with empty description: no ocean keyword occurs in the text, while the hazard
keywords storm, flood and warning do. -/
theorem storm_fallback_eval :
    keywordFallbackVerdict "" "storm_flood_warning.mp4" "" =
      { status := "verified", message := "Video verified (keyword-based fallback)"
        confidence := 3/16, detectedType := "other", oceanScore := 0, hazardScore := 3/8
        fallback := true, quickMode := false, cached := false } := by
  have htext : toLowerStr ("storm_flood_warning.mp4" ++ " " ++ "")
      = "storm_flood_warning.mp4 " := by decide
  have hhfil : hazardKeywords.filter (fun k => strHasSub "storm_flood_warning.mp4 " k)
      = ["storm", "flood", "warning"] := by decide
  have hofil : oceanKeywords.filter (fun k => strHasSub "storm_flood_warning.mp4 " k)
      = [] := by decide
  have hh : keywordScore hazardKeywords "storm_flood_warning.mp4 " = 3/8 := by
    unfold keywordScore
    rw [hhfil]
    norm_num [hazardKeywords]
  have ho : keywordScore oceanKeywords "storm_flood_warning.mp4 " = 0 := by
    unfold keywordScore
    rw [hofil]
    norm_num
  simp only [keywordFallbackVerdict, htext, hh, ho]
  norm_num

/-- C4 counterexample: for the video-path keyword fallback on filename
"storm_flood_warning.mp4" with empty description, ocean_score is 0, not
strictly greater than 0.1 as claimed. -/
theorem storm_fallback_ocean_score_zero :
    (keywordFallbackVerdict "" "storm_flood_warning.mp4" "").oceanScore = 0
    ∧ ¬(0.1 < (keywordFallbackVerdict "" "storm_flood_warning.mp4" "").oceanScore) := by
  rw [storm_fallback_eval]
  norm_num

/-- C4 amended: on the video path, when the buffer yields no frames and the
filename is "storm_flood_warning.mp4" with empty description, the keyword
fallback computes hazard_score = 3/8 > 0.1 while ocean_score = 0, and — since
the fallback verifies when either score exceeds 0.1 — returns status
'verified' with fallback=true. -/
theorem video_fallback_storm_flood_warning :
    (verifyVideoStep sampleEnv [] "h" "" "" "storm_flood_warning.mp4" false).1
      = keywordFallbackVerdict "" "storm_flood_warning.mp4" ""
    ∧ (keywordFallbackVerdict "" "storm_flood_warning.mp4" "").hazardScore = 3/8
    ∧ 0.1 < (keywordFallbackVerdict "" "storm_flood_warning.mp4" "").hazardScore
    ∧ (keywordFallbackVerdict "" "storm_flood_warning.mp4" "").oceanScore = 0
    ∧ (keywordFallbackVerdict "" "storm_flood_warning.mp4" "").status = "verified"
    ∧ (keywordFallbackVerdict "" "storm_flood_warning.mp4" "").fallback = true := by
  refine ⟨rfl, ?_, ?_, ?_, ?_, ?_⟩ <;> rw [storm_fallback_eval] <;> norm_num

/-- C2: for every successfully decoded image, verify_image returns status
'verified' iff the five gates all pass in order (real image, significant
water, hazard indicators, compatible category hint when one is supplied,
hazard confidence at least 0.4); the first failing gate yields status
'failed' with the message naming that gate; and the returned confidence is
the arithmetic mean of the hazard-detection and AI-detection confidences. -/
theorem verify_image_five_gates (f : ImageFeatures) (sel : Option String)
    (description filename : String) :
    ((verifyImage (some f) sel description filename).status = "verified"
      ↔ ((detectAIGeneratedImage f.metrics filename).isRealImage = true
        ∧ f.waterSignificant = true
        ∧ f.hazardIndicated = true
        ∧ (∀ s, sel = some s → s ≠ "" →
            imageCompatible s (detectHazardTypeImg f.metrics filename description).detectedType
              = true)
        ∧ 0.4 ≤ (detectHazardTypeImg f.metrics filename description).confidence))
    ∧ ((verifyImage (some f) sel description filename).status = "verified"
      ∨ (verifyImage (some f) sel description filename).status = "failed")
    ∧ ((verifyImage (some f) sel description filename).message =
        (if (detectAIGeneratedImage f.metrics filename).isRealImage = false then msgAIGenerated
         else if f.waterSignificant = false then msgNoWater
         else if f.hazardIndicated = false then msgNoHazard
         else if ¬ (∀ s, sel = some s → s ≠ "" →
             imageCompatible s (detectHazardTypeImg f.metrics filename description).detectedType
               = true) then
           msgTypeMismatch (detectHazardTypeImg f.metrics filename description).detectedType
         else if (detectHazardTypeImg f.metrics filename description).confidence < 0.4 then
           msgLowConfidence
         else msgVerified))
    ∧ (verifyImage (some f) sel description filename).confidence
      = ((detectHazardTypeImg f.metrics filename description).confidence
        + (detectAIGeneratedImage f.metrics filename).confidence) / 2 := by
  classical
  obtain ⟨m, w, hz⟩ := f
  simp only [verifyImage]
  cases sel with
  | none =>
    cases hreal : (detectAIGeneratedImage m filename).isRealImage <;>
      cases w <;> cases hz <;>
      rcases lt_or_le (detectHazardTypeImg m filename description).confidence 0.4
        with hconf | hconf <;>
      simp_all [not_lt] <;>
      simp [not_lt.mpr hconf]
  | some s =>
    cases hreal : (detectAIGeneratedImage m filename).isRealImage <;>
      cases w <;> cases hz <;>
      cases hcmp : ((s != "") && !(imageCompatible s
        (detectHazardTypeImg m filename description).detectedType)) <;>
      rcases lt_or_le (detectHazardTypeImg m filename description).confidence 0.4
        with hconf | hconf <;>
      by_cases hs : s = "" <;>
      simp_all [not_lt] <;>
      simp [not_lt.mpr hconf]

/-- The AI detector's additive score is nonnegative, so its confidence is at
least 0.5. -/
theorem detectAI_confidence_ge (m : Metrics) (filename : String) :
    1/2 ≤ (detectAIGeneratedImage m filename).confidence := by
  simp only [detectAIGeneratedImage]
  refine le_min (by norm_num) ?_
  split_ifs <;> norm_num

/-- Every content-based image candidate carries confidence at least 0.3. -/
theorem contentCandidatesImg_conf_ge (m : Metrics) :
    ∀ p ∈ contentCandidatesImg m, (0.3:ℚ) ≤ p.2 := by
  unfold contentCandidatesImg
  simp only [List.forall_mem_append]
  refine ⟨⟨⟨⟨?_, ?_⟩, ?_⟩, ?_⟩, ?_⟩ <;>
    (intro p hp; split_ifs at hp <;> simp_all <;> norm_num)

/-- The keyword stage preserves the 0.3 lower bound on candidate
confidences: it only appends candidates at 0.8 or boosts existing ones. -/
theorem kwFold_conf_ge (text : String) (entries : List (String × List String)) :
    ∀ (acc : List (String × ℚ)), (∀ p ∈ acc, (0.3:ℚ) ≤ p.2) →
      ∀ p ∈ entries.foldl (kwAdjust text) acc, (0.3:ℚ) ≤ p.2 := by
  induction entries with
  | nil => intro acc h; simpa using h
  | cons e rest ih =>
    intro acc h
    simp only [List.foldl_cons]
    apply ih
    intro p hp
    unfold kwAdjust at hp
    split_ifs at hp with h1 h2
    · simp only [List.mem_map] at hp
      obtain ⟨q, hq, rfl⟩ := hp
      split_ifs with h3
      · exact le_min (by norm_num) (by have := h q hq; linarith)
      · exact h q hq
    · rcases List.mem_append.mp hp with hq | hq
      · exact h p hq
      · simp only [List.mem_singleton] at hq
        subst hq
        norm_num
    · exact h p hp

/-- Every candidate of the full image-path candidate list carries confidence
at least 0.3. -/
theorem candidatesImg_conf_ge (m : Metrics) (filename description : String) :
    ∀ p ∈ candidatesImg m filename description, (0.3:ℚ) ≤ p.2 := by
  intro p hp
  simp only [candidatesImg] at hp
  split_ifs at hp with h
  · simp only [List.mem_singleton] at hp
    subst hp
    norm_num
  · exact kwFold_conf_ge _ _ _ (contentCandidatesImg_conf_ge m) p hp

/-- The image-path candidate list is never empty (the default candidate is
inserted when nothing fired). -/
theorem candidatesImg_ne_nil (m : Metrics) (filename description : String) :
    candidatesImg m filename description ≠ [] := by
  simp only [candidatesImg]
  split_ifs with h
  · simp
  · simpa [List.isEmpty_iff] using h

/-- `headD` of a nonempty list is a member. -/
theorem headD_mem {α : Type} (l : List α) (d : α) (h : l ≠ []) : l.headD d ∈ l := by
  cases l with
  | nil => exact absurd rfl h
  | cons a t => simp

/-- The image-path classifier's returned confidence is at least 0.3. -/
theorem detectHazardTypeImg_conf_ge (m : Metrics) (filename description : String) :
    (0.3:ℚ) ≤ (detectHazardTypeImg m filename description).confidence := by
  have h := candidatesImg_conf_ge m filename description _
    (headD_mem _ ("other", 0.3) (candidatesImg_ne_nil m filename description))
  simpa [detectHazardTypeImg] using h

/-- Evaluation of the AI detector on `smoothMetrics` with filename
"generated_tsunami.png": over-smooth edges (+0.2) and the AI filename pattern
(+0.3) push the score to 0.5, flagging the image as AI-generated at
confidence 0.9. -/
theorem smooth_ai_eval :
    detectAIGeneratedImage smoothMetrics "generated_tsunami.png"
      = { isRealImage := false, confidence := 9/10, aiScore := 1/2 } := by
  have hpat : aiFilenamePatterns.any
      (fun p => strHasSub (toLowerStr "generated_tsunami.png") p) = true := by decide
  have hne : ("generated_tsunami.png" : String) ≠ "" := by decide
  simp only [detectAIGeneratedImage, smoothMetrics, hpat, hne]
  norm_num [hne]

/-- Evaluation of the image-path candidate list on `smoothMetrics` with
filename "generated_tsunami.png": no content rule fires, the tsunami keyword
fires. -/
theorem smooth_cand_eval :
    candidatesImg smoothMetrics "generated_tsunami.png" ""
      = [(("tsunami" : String), (4/5 : ℚ))] := by
  have htext : toLowerStr ("generated_tsunami.png" ++ " " ++ "")
      = "generated_tsunami.png " := by decide
  have hcontent : contentCandidatesImg smoothMetrics = [] := by
    simp only [contentCandidatesImg, smoothMetrics]
    norm_num
  have h1 : (["tsunami", "tidal", "seismic", "evacuation"].any
      (fun k => strHasSub "generated_tsunami.png " k)) = true := by decide
  have h2 : (["storm", "surge", "hurricane", "cyclone", "typhoon"].any
      (fun k => strHasSub "generated_tsunami.png " k)) = false := by decide
  have h3 : (["wave", "rough", "swell", "surf"].any
      (fun k => strHasSub "generated_tsunami.png " k)) = false := by decide
  have h4 : (["flood", "water", "inundation", "flooded"].any
      (fun k => strHasSub "generated_tsunami.png " k)) = false := by decide
  have h5 : (["debris", "trash", "litter", "waste"].any
      (fun k => strHasSub "generated_tsunami.png " k)) = false := by decide
  have h6 : (["oil", "spill", "pollution", "contamination"].any
      (fun k => strHasSub "generated_tsunami.png " k)) = false := by decide
  have h7 : (["erosion", "coast", "cliff", "beach loss"].any
      (fun k => strHasSub "generated_tsunami.png " k)) = false := by decide
  have h8 : (["wildlife", "fish", "animal", "marine life"].any
      (fun k => strHasSub "generated_tsunami.png " k)) = false := by decide
  simp only [candidatesImg, htext, hcontent, hazardKeywordMap,
    List.foldl_cons, List.foldl_nil, kwAdjust, h1, h2, h3, h4, h5, h6, h7, h8]
  norm_num

/-- The descending top-3 ranking of a single candidate is that candidate. -/
theorem single_top_eval :
    topPredictionsOf [(("tsunami" : String), (4/5 : ℚ))]
      = [(("tsunami" : String), (4/5 : ℚ))] := by
  simp [topPredictionsOf, npArgsortDesc, List.insertionSort, List.orderedInsert,
    List.range_succ]

/-- Evaluation of the image-path classifier on `smoothMetrics` with filename
"generated_tsunami.png". -/
theorem smooth_hd_eval :
    detectHazardTypeImg smoothMetrics "generated_tsunami.png" ""
      = { detectedType := "tsunami", confidence := 4/5,
          topPredictions := [(("tsunami" : String), (4/5 : ℚ))] } := by
  simp [detectHazardTypeImg, smooth_cand_eval, single_top_eval]

/-- C10: for every decoded image the verdict confidence equals the mean of the
hazard-detection and AI-detection confidences regardless of status (and is at
least 0.4, hence nonzero); a decode failure returns confidence 0; and a
concrete 'failed' verdict (AI-generation gate) carries confidence 0.85. -/
theorem verify_image_confidence_policy :
    (∀ (f : ImageFeatures) (sel : Option String) (description filename : String),
      (verifyImage (some f) sel description filename).confidence
        = ((detectHazardTypeImg f.metrics filename description).confidence
          + (detectAIGeneratedImage f.metrics filename).confidence) / 2
      ∧ 0.4 ≤ (verifyImage (some f) sel description filename).confidence)
    ∧ (∀ (sel : Option String) (description filename : String),
        (verifyImage none sel description filename).confidence = 0)
    ∧ (verifyImage (some smoothFeatures) none "" "generated_tsunami.png").status = "failed"
    ∧ (verifyImage (some smoothFeatures) none "" "generated_tsunami.png").confidence
        = 17/20 := by
  refine ⟨fun f sel description filename => ⟨rfl, ?_⟩, fun _ _ _ => rfl, ?_, ?_⟩
  · have h1 := detectHazardTypeImg_conf_ge f.metrics filename description
    have h2 := detectAI_confidence_ge f.metrics filename
    have he : (verifyImage (some f) sel description filename).confidence
        = ((detectHazardTypeImg f.metrics filename description).confidence
          + (detectAIGeneratedImage f.metrics filename).confidence) / 2 := rfl
    rw [he]
    linarith
  · simp [verifyImage, smoothFeatures, smooth_ai_eval]
  · have he : (verifyImage (some smoothFeatures) none "" "generated_tsunami.png").confidence
        = ((detectHazardTypeImg smoothFeatures.metrics "generated_tsunami.png" "").confidence
          + (detectAIGeneratedImage smoothFeatures.metrics "generated_tsunami.png").confidence)
            / 2 := rfl
    rw [he]
    have hm : smoothFeatures.metrics = smoothMetrics := rfl
    rw [hm, smooth_ai_eval, smooth_hd_eval]
    norm_num

/-- Unfolding equation for `List.lookup` on a cons cell. -/
theorem lookup_cons_eval {α β : Type} [BEq α] (k : α) (b : α × β) (t : List (α × β)) :
    List.lookup k (b :: t) = (match k == b.1 with
      | true => some b.2
      | false => List.lookup k t) := by
  rfl

/-- A key absent from a dict is absent from its tail. -/
theorem lookup_tail_of_none {α β : Type} [BEq α] {k : α} {l : List (α × β)}
    (h : List.lookup k l = none) : List.lookup k l.tail = none := by
  cases l with
  | nil => simp
  | cons b t =>
    rw [lookup_cons_eval] at h
    cases hk : k == b.1
    · rw [hk] at h
      simpa using h
    · rw [hk] at h
      exact absurd h (by simp)

/-- Looking up past entries that do not carry the key. -/
theorem lookup_append_of_none {α β : Type} [BEq α] {k : α} {l l2 : List (α × β)}
    (h : List.lookup k l = none) : List.lookup k (l ++ l2) = List.lookup k l2 := by
  induction l with
  | nil => simp
  | cons b t ih =>
    rw [List.cons_append, lookup_cons_eval]
    rw [lookup_cons_eval] at h
    cases hk : k == b.1
    · rw [hk] at h
      exact ih h
    · rw [hk] at h
      exact absurd h (by simp)

/-- A key absent from a dict fails the membership scan of `dictStore`. -/
theorem any_eq_false_of_lookup_none {k : String} {β : Type} {cache : List (String × β)}
    (h : List.lookup k cache = none) : cache.any (fun p => p.1 == k) = false := by
  induction cache with
  | nil => simp
  | cons b t ih =>
    rw [lookup_cons_eval] at h
    cases hk : k == b.1
    · rw [hk] at h
      have hbk : (b.1 == k) = false := by
        simp only [beq_eq_false_iff_ne] at hk ⊢
        exact fun he => hk he.symm
      simp [List.any_cons, hbk, ih h]
    · rw [hk] at h
      exact absurd h (by simp)

/-- `dictStore` grows the cache by at most one entry. -/
theorem dictStore_length (cache : List (String × VidVerdict)) (key : String) (v : VidVerdict) :
    (dictStore cache key v).length ≤ cache.length + 1 := by
  unfold dictStore
  split_ifs with h
  · simp
  · simp

/-- `cacheStore` preserves the capacity bound: at capacity it first drops the
earliest-inserted entry. -/
theorem cacheStore_length (cache : List (String × VidVerdict)) (key : String) (v : VidVerdict)
    (h : cache.length ≤ cacheMaxSize) :
    (cacheStore cache key v).length ≤ cacheMaxSize := by
  unfold cacheStore
  split_ifs with hc
  · have h1 := dictStore_length cache.tail key v
    have h2 : cache.tail.length = cache.length - 1 := List.length_tail cache
    simp only [cacheMaxSize] at *
    omega
  · have h1 := dictStore_length cache key v
    simp only [cacheMaxSize] at *
    omega

/-- C8: every `verify_video` call preserves the 50-entry bound on the
verification cache; and a store performed while the cache is at capacity
first removes the earliest-inserted key (the head of the insertion order). -/
theorem video_cache_bounded (env : VideoEnv) (cache : List (String × VidVerdict))
    (videoHash selectedHazardType description filename : String) (quickMode : Bool)
    (h : cache.length ≤ cacheMaxSize) :
    ((verifyVideoStep env cache videoHash selectedHazardType description filename
        quickMode).2.1).length ≤ cacheMaxSize
    ∧ (∀ (key : String) (v : VidVerdict), cacheMaxSize ≤ cache.length →
        cacheStore cache key v = dictStore cache.tail key v) := by
  constructor
  · simp only [verifyVideoStep]
    cases hl : List.lookup (videoCacheKey videoHash selectedHazardType filename) cache with
    | some v => simpa using h
    | none =>
      cases quickMode with
      | true => simpa using cacheStore_length cache _ env.quickResult h
      | false =>
        by_cases hf : env.frames.isEmpty
        · simpa [hf] using h
        · simpa [hf] using cacheStore_length cache _ _ h
  · intro key v hcap
    unfold cacheStore
    rw [if_pos hcap]

/-- Witness for C8 at a concrete input: the empty cache is within capacity and
remains so after a quick-mode call. -/
theorem video_cache_bounded_witness :
    ([] : List (String × VidVerdict)).length ≤ cacheMaxSize
    ∧ ((verifyVideoStep sampleEnv [] "h" "flooding" "" "v.mp4" true).2.1).length
        ≤ cacheMaxSize :=
  ⟨Nat.zero_le _,
   (video_cache_bounded sampleEnv [] "h" "flooding" "" "v.mp4" true (Nat.zero_le _)).1⟩

/-- A freshly stored key is found by the next lookup. -/
theorem lookup_cacheStore_self {cache : List (String × VidVerdict)} {k : String}
    {v : VidVerdict} (h : List.lookup k cache = none) :
    List.lookup k (cacheStore cache k v) = some v := by
  unfold cacheStore
  have h2 : List.lookup k (if cacheMaxSize ≤ cache.length then cache.tail else cache)
      = none := by
    split_ifs
    · exact lookup_tail_of_none h
    · exact h
  unfold dictStore
  rw [if_neg (by rw [any_eq_false_of_lookup_none h2]; simp),
    lookup_append_of_none h2, lookup_cons_eval]
  simp

/-- C9: the cache key records only (hash, category, filename) — not the mode —
so a quick-mode call followed by a full-mode call on the same buffer, category
and filename returns the cached quick-mode verdict with `cached=true`, leaves
the cache unchanged, and never reaches frame extraction. -/
theorem quick_verdict_shadows_full (env : VideoEnv) (cache : List (String × VidVerdict))
    (videoHash selectedHazardType description filename : String)
    (hmiss : List.lookup (videoCacheKey videoHash selectedHazardType filename) cache = none) :
    (verifyVideoStep env cache videoHash selectedHazardType description filename true).1
        = env.quickResult
    ∧ (verifyVideoStep env cache videoHash selectedHazardType description filename true).2.2
        = false
    ∧ (verifyVideoStep env
        (verifyVideoStep env cache videoHash selectedHazardType description filename true).2.1
        videoHash selectedHazardType description filename false).1
        = { env.quickResult with cached := true }
    ∧ (verifyVideoStep env
        (verifyVideoStep env cache videoHash selectedHazardType description filename true).2.1
        videoHash selectedHazardType description filename false).2.2 = false
    ∧ (verifyVideoStep env
        (verifyVideoStep env cache videoHash selectedHazardType description filename true).2.1
        videoHash selectedHazardType description filename false).2.1
        = (verifyVideoStep env cache videoHash selectedHazardType description filename
            true).2.1 := by
  have hfirst : verifyVideoStep env cache videoHash selectedHazardType description filename true
      = (env.quickResult,
         cacheStore cache (videoCacheKey videoHash selectedHazardType filename) env.quickResult,
         false) := by
    simp only [verifyVideoStep]
    rw [hmiss]
    simp
  have hhit : List.lookup (videoCacheKey videoHash selectedHazardType filename)
      (cacheStore cache (videoCacheKey videoHash selectedHazardType filename) env.quickResult)
      = some env.quickResult := lookup_cacheStore_self hmiss
  have hsecond : verifyVideoStep env
      (cacheStore cache (videoCacheKey videoHash selectedHazardType filename) env.quickResult)
      videoHash selectedHazardType description filename false
      = ({ env.quickResult with cached := true },
         cacheStore cache (videoCacheKey videoHash selectedHazardType filename) env.quickResult,
         false) := by
    simp only [verifyVideoStep]
    rw [hhit]
  rw [hfirst]
  rw [hsecond]
  exact ⟨rfl, rfl, rfl, rfl, rfl⟩

/-- Witness for C9 at a concrete input: empty cache, quick call then full call
with the same hash, category and filename. -/
theorem quick_verdict_shadows_full_witness :
    List.lookup (videoCacheKey "h" "flooding" "v.mp4")
        ([] : List (String × VidVerdict)) = none
    ∧ ((verifyVideoStep sampleEnv [] "h" "flooding" "" "v.mp4" true).1 = sampleEnv.quickResult
      ∧ (verifyVideoStep sampleEnv [] "h" "flooding" "" "v.mp4" true).2.2 = false
      ∧ (verifyVideoStep sampleEnv
          (verifyVideoStep sampleEnv [] "h" "flooding" "" "v.mp4" true).2.1
          "h" "flooding" "" "v.mp4" false).1
          = { sampleEnv.quickResult with cached := true }
      ∧ (verifyVideoStep sampleEnv
          (verifyVideoStep sampleEnv [] "h" "flooding" "" "v.mp4" true).2.1
          "h" "flooding" "" "v.mp4" false).2.2 = false
      ∧ (verifyVideoStep sampleEnv
          (verifyVideoStep sampleEnv [] "h" "flooding" "" "v.mp4" true).2.1
          "h" "flooding" "" "v.mp4" false).2.1
          = (verifyVideoStep sampleEnv [] "h" "flooding" "" "v.mp4" true).2.1) :=
  ⟨rfl, quick_verdict_shadows_full sampleEnv [] "h" "flooding" "" "v.mp4" rfl⟩

/-- The head of the descending argsort ranking carries a maximal confidence:
every index of the candidate range is dominated by it. -/
theorem npArgsortDesc_head_max (confs : List ℚ) :
    ∀ j ∈ List.range confs.length,
      confs.getD j 0 ≤ confs.getD ((npArgsortDesc confs).headD 0) 0 := by
  intro j hj
  have hperm := List.perm_insertionSort (rankLE confs) (List.range confs.length)
  have hsorted := List.sorted_insertionSort (rankLE confs) (List.range confs.length)
  have hpairR : List.Pairwise (fun a b => rankLE confs b a)
      (List.insertionSort (rankLE confs) (List.range confs.length)).reverse := by
    rw [List.pairwise_reverse]
    exact hsorted
  have hjR : j ∈ (List.insertionSort (rankLE confs) (List.range confs.length)).reverse := by
    rw [List.mem_reverse]
    exact hperm.mem_iff.mpr hj
  unfold npArgsortDesc
  cases hR : (List.insertionSort (rankLE confs) (List.range confs.length)).reverse with
  | nil =>
    rw [hR] at hjR
    simp at hjR
  | cons m rest =>
    rw [hR] at hjR hpairR
    simp only [List.headD_cons]
    rcases List.mem_cons.mp hjR with rfl | hjrest
    · exact le_refl _
    · rcases (List.pairwise_cons.mp hpairR).1 j hjrest with hlt | ⟨heq, _⟩
      · exact le_of_lt hlt
      · exact le_of_eq heq

/-- The confidence of the first `top_predictions` entry is the confidence at
the head index of the descending ranking. -/
theorem topPredictionsOf_headD (cand : List (String × ℚ)) (hne : cand ≠ []) :
    ((topPredictionsOf cand).headD ("other", 0)).2
      = (cand.map Prod.snd).getD ((npArgsortDesc (cand.map Prod.snd)).headD 0) 0 := by
  unfold topPredictionsOf
  cases hR : npArgsortDesc (cand.map Prod.snd) with
  | nil =>
    have hlen : (npArgsortDesc (cand.map Prod.snd)).length = cand.length := by
      simp [npArgsortDesc]
    rw [hR] at hlen
    exact absurd (List.length_eq_zero.mp hlen.symm) hne
  | cons m rest =>
    simp [List.take_succ_cons]

/-- Every candidate's confidence is dominated by the first `top_predictions`
entry. -/
theorem topPredictions_head_max (cand : List (String × ℚ)) (hne : cand ≠ []) :
    ∀ p ∈ cand, p.2 ≤ ((topPredictionsOf cand).headD ("other", 0)).2 := by
  intro p hp
  rw [topPredictionsOf_headD cand hne]
  obtain ⟨i, hi, rfl⟩ := List.getElem_of_mem hp
  have hilen : i < (cand.map Prod.snd).length := by simpa using hi
  have hgd : (cand.map Prod.snd).getD i 0 = cand[i].2 := by
    rw [List.getD_eq_getElem _ _ hilen]
    simp
  rw [← hgd]
  have hmax := npArgsortDesc_head_max (cand.map Prod.snd) i
    (by simpa [List.mem_range] using hilen)
  exact hmax

/-- The video-path candidate list is never empty. -/
theorem candidatesVid_ne_nil (frames : List AbsFrame) (filename description : String) :
    candidatesVid frames filename description ≠ [] := by
  simp only [candidatesVid]
  split_ifs with h
  · simp
  · simpa [List.isEmpty_iff] using h

/-- C1 amended: both classifiers return as detected_type/confidence the
FIRST-INSERTED candidate (detected_types[0] / confidences[0]), not the top of
the confidence ranking; the first entry of top_predictions does carry a
maximal confidence among the candidates. -/
theorem detect_type_is_first_candidate :
    (∀ (m : Metrics) (filename description : String),
      (detectHazardTypeImg m filename description).detectedType
          = ((candidatesImg m filename description).headD ("other", 0.3)).1
      ∧ (detectHazardTypeImg m filename description).confidence
          = ((candidatesImg m filename description).headD ("other", 0.3)).2
      ∧ ∀ p ∈ candidatesImg m filename description,
          p.2 ≤ (((detectHazardTypeImg m filename description).topPredictions).headD
            ("other", 0)).2)
    ∧ (∀ (frames : List AbsFrame) (filename description : String), frames ≠ [] →
      (detectHazardTypeVid frames filename description).detectedType
          = ((candidatesVid frames filename description).headD ("other", 0.3)).1
      ∧ (detectHazardTypeVid frames filename description).confidence
          = ((candidatesVid frames filename description).headD ("other", 0.3)).2
      ∧ ∀ p ∈ candidatesVid frames filename description,
          p.2 ≤ (((detectHazardTypeVid frames filename description).topPredictions).headD
            ("other", 0)).2) := by
  constructor
  · intro m filename description
    exact ⟨rfl, rfl,
      topPredictions_head_max _ (candidatesImg_ne_nil m filename description)⟩
  · intro frames filename description hne
    have hif : frames.isEmpty = false := by simpa [List.isEmpty_iff] using hne
    simp only [detectHazardTypeVid, hif, Bool.false_eq_true, if_false]
    refine ⟨trivial, trivial, ?_⟩
    exact topPredictions_head_max _ (candidatesVid_ne_nil frames filename description)

/-- Witness for C1 at a concrete input: one frame, filename "x.mp4". -/
theorem detect_type_is_first_candidate_witness :
    ([sampleFrame] ≠ ([] : List AbsFrame))
    ∧ ((detectHazardTypeVid [sampleFrame] "x.mp4" "").detectedType
          = ((candidatesVid [sampleFrame] "x.mp4" "").headD ("other", 0.3)).1
      ∧ (detectHazardTypeVid [sampleFrame] "x.mp4" "").confidence
          = ((candidatesVid [sampleFrame] "x.mp4" "").headD ("other", 0.3)).2
      ∧ ∀ p ∈ candidatesVid [sampleFrame] "x.mp4" "",
          p.2 ≤ (((detectHazardTypeVid [sampleFrame] "x.mp4" "").topPredictions).headD
            ("other", 0)).2) :=
  ⟨by simp, detect_type_is_first_candidate.2 [sampleFrame] "x.mp4" "" (by simp)⟩

/-- Evaluation of the image-path candidate list on `cexMetrics` with empty
filename and description: high-waves (0.6), tsunami (0.8) and debris (0.7)
fire in that insertion order; no keyword fires on the text " ". -/
theorem cex_cand_eval :
    candidatesImg cexMetrics "" ""
      = [(("high-waves" : String), (3/5 : ℚ)), (("tsunami" : String), (4/5 : ℚ)),
         (("debris" : String), (7/10 : ℚ))] := by
  have htext : toLowerStr ("" ++ " " ++ "") = " " := by decide
  have hcontent : contentCandidatesImg cexMetrics
      = [(("high-waves" : String), (3/5 : ℚ)), (("tsunami" : String), (4/5 : ℚ)),
         (("debris" : String), (7/10 : ℚ))] := by
    simp only [contentCandidatesImg, cexMetrics]
    norm_num
  have h1 : (["tsunami", "tidal", "seismic", "evacuation"].any
      (fun k => strHasSub " " k)) = false := by decide
  have h2 : (["storm", "surge", "hurricane", "cyclone", "typhoon"].any
      (fun k => strHasSub " " k)) = false := by decide
  have h3 : (["wave", "rough", "swell", "surf"].any
      (fun k => strHasSub " " k)) = false := by decide
  have h4 : (["flood", "water", "inundation", "flooded"].any
      (fun k => strHasSub " " k)) = false := by decide
  have h5 : (["debris", "trash", "litter", "waste"].any
      (fun k => strHasSub " " k)) = false := by decide
  have h6 : (["oil", "spill", "pollution", "contamination"].any
      (fun k => strHasSub " " k)) = false := by decide
  have h7 : (["erosion", "coast", "cliff", "beach loss"].any
      (fun k => strHasSub " " k)) = false := by decide
  have h8 : (["wildlife", "fish", "animal", "marine life"].any
      (fun k => strHasSub " " k)) = false := by decide
  simp only [candidatesImg, htext, hcontent, hazardKeywordMap, List.foldl_cons,
    List.foldl_nil, kwAdjust, h1, h2, h3, h4, h5, h6, h7, h8]
  norm_num

/-- Evaluation of the image-path classifier on `cexMetrics`: detected_type and
confidence come from the first-inserted candidate (high-waves, 0.6), while the
ranking places (tsunami, 0.8) first. -/
theorem cex_detect_eval :
    detectHazardTypeImg cexMetrics "" ""
      = { detectedType := "high-waves", confidence := 3/5,
          topPredictions := [(("tsunami" : String), (4/5 : ℚ)),
            (("debris" : String), (7/10 : ℚ)),
            (("high-waves" : String), (3/5 : ℚ))] } := by
  have htop : topPredictionsOf
      [(("high-waves" : String), (3/5 : ℚ)), (("tsunami" : String), (4/5 : ℚ)),
       (("debris" : String), (7/10 : ℚ))]
      = [(("tsunami" : String), (4/5 : ℚ)), (("debris" : String), (7/10 : ℚ)),
         (("high-waves" : String), (3/5 : ℚ))] := by
    simp only [topPredictionsOf, npArgsortDesc, List.map_cons, List.map_nil]
    norm_num [rankLE, List.range_succ, List.insertionSort, List.orderedInsert,
      List.getD_cons_zero, List.getD_cons_succ]
  simp [detectHazardTypeImg, cex_cand_eval, htop]

/-- C1 counterexample: on `cexMetrics` with empty filename/description, the
image-path classifier returns detected_type "high-waves" with confidence 0.6,
while the top entry of top_predictions is ("tsunami", 0.8) — the returned
pair does not equal the top of the confidence-descending ranking. -/
theorem detect_type_not_top_ranked :
    (detectHazardTypeImg cexMetrics "" "").detectedType = "high-waves"
    ∧ (detectHazardTypeImg cexMetrics "" "").confidence = 3/5
    ∧ ((detectHazardTypeImg cexMetrics "" "").topPredictions.headD ("other", 0))
        = ("tsunami", 4/5)
    ∧ (detectHazardTypeImg cexMetrics "" "").detectedType
        ≠ ((detectHazardTypeImg cexMetrics "" "").topPredictions.headD ("other", 0)).1
    ∧ (detectHazardTypeImg cexMetrics "" "").confidence
        ≠ ((detectHazardTypeImg cexMetrics "" "").topPredictions.headD ("other", 0)).2 := by
  rw [cex_detect_eval]
  refine ⟨rfl, rfl, rfl, by decide, by norm_num⟩

/-- C6: every WaterAnalysis produced by the image-path water analyzer — both
the successful result and the fail-closed all-zero result returned on an
internal exception — satisfies
has_significant_water ↔ (water_percentage > 0.4 ∧ water_confidence > 0.75). -/
theorem water_analysis_invariant (hgt wdt : ℕ) (f : FrameData hgt wdt) :
    ((analyzeWaterContent f).hasSignificantWater
      ↔ (0.4 < (analyzeWaterContent f).waterPercentage
        ∧ 0.75 < (analyzeWaterContent f).waterConfidence))
    ∧ (analyzeWaterContentOnError.hasSignificantWater
      ↔ (0.4 < analyzeWaterContentOnError.waterPercentage
        ∧ 0.75 < analyzeWaterContentOnError.waterConfidence)) := by
  constructor
  · exact Iff.rfl
  · simp only [analyzeWaterContentOnError]
    norm_num

/-- The pixel grid is nonempty. -/
theorem totalPixels_cast_pos (hgt wdt : ℕ) : 0 < (totalPixels hgt wdt : ℝ) := by
  have h : 0 < totalPixels hgt wdt := Nat.mul_pos (Nat.succ_pos hgt) (Nat.succ_pos wdt)
  exact_mod_cast h

/-- The water mask marks at most every pixel. -/
theorem waterPixels_le {hgt wdt : ℕ} (f : FrameData hgt wdt) :
    waterPixels f ≤ totalPixels hgt wdt := by
  unfold waterPixels totalPixels
  calc (Finset.univ.filter fun p => f.waterMask p = true).card
      ≤ Finset.univ.card := Finset.card_filter_le _ _
    _ = (hgt + 1) * (wdt + 1) := by simp [Finset.card_univ]

/-- `water_percentage` is a pixel fraction: it lies in [0, 1]. -/
theorem waterPercentage_mem (hgt wdt : ℕ) (f : FrameData hgt wdt) :
    0 ≤ waterPercentage f ∧ waterPercentage f ≤ 1 := by
  constructor
  · exact div_nonneg (Nat.cast_nonneg _) (le_of_lt (totalPixels_cast_pos hgt wdt))
  · rw [waterPercentage, div_le_one (totalPixels_cast_pos hgt wdt)]
    exact_mod_cast waterPixels_le f

/-- `water_edge_ratio` is nonnegative. -/
theorem waterEdgeRatio_nonneg {hgt wdt : ℕ} (f : FrameData hgt wdt) :
    0 ≤ waterEdgeRatio f := by
  unfold waterEdgeRatio
  split_ifs with h
  · apply div_nonneg _ (Nat.cast_nonneg _)
    unfold waterEdges
    positivity
  · exact le_refl 0

/-- `texture_variance` (a population variance) is nonnegative. -/
theorem textureVariance_nonneg {hgt wdt : ℕ} (f : FrameData hgt wdt) :
    0 ≤ textureVariance f := by
  unfold textureVariance
  apply div_nonneg _ (le_of_lt (totalPixels_cast_pos hgt wdt))
  apply Finset.sum_nonneg
  intro p _
  positivity

/-- The pre-guard water confidence lies in [0, 1]: the percentage term is at
most 0.4, and the two min-clamped terms are at most 0.35 and 0.25. -/
theorem waterConfidencePre_mem (hgt wdt : ℕ) (f : FrameData hgt wdt) :
    0 ≤ waterConfidencePre f ∧ waterConfidencePre f ≤ 1 := by
  obtain ⟨hp0, hp1⟩ := waterPercentage_mem hgt wdt f
  have hr0 : (0:ℝ) ≤ min (waterEdgeRatio f * 1.5) 1 :=
    le_min (by nlinarith [waterEdgeRatio_nonneg f]) (by norm_num)
  have hr1 : min (waterEdgeRatio f * 1.5) 1 ≤ 1 := min_le_right _ _
  have hv0 : (0:ℝ) ≤ min (textureVariance f / 1000) 1 :=
    le_min (by nlinarith [textureVariance_nonneg f]) (by norm_num)
  have hv1 : min (textureVariance f / 1000) 1 ≤ 1 := min_le_right _ _
  unfold waterConfidencePre
  constructor <;> nlinarith

/-- The coherence guard (multiplication by 0.3) keeps the confidence in
[0, 1]. -/
theorem waterConfidence_mem (hgt wdt : ℕ) (f : FrameData hgt wdt) :
    0 ≤ waterConfidence f ∧ waterConfidence f ≤ 1 := by
  obtain ⟨h0, h1⟩ := waterConfidencePre_mem hgt wdt f
  unfold waterConfidence
  split_ifs with hw
  · cases hca : f.contourAreas with
    | nil => exact ⟨h0, h1⟩
    | cons a rest =>
      dsimp only
      split_ifs with hr
      · constructor <;> nlinarith
      · exact ⟨h0, h1⟩
  · exact ⟨h0, h1⟩

/-- C7: for every frame, the analyzer's water_percentage and water_confidence
lie in [0, 1], including after the coherence-guard multiplication by 0.3. -/
theorem water_outputs_bounded (hgt wdt : ℕ) (f : FrameData hgt wdt) :
    0 ≤ (analyzeWaterContent f).waterPercentage
    ∧ (analyzeWaterContent f).waterPercentage ≤ 1
    ∧ 0 ≤ (analyzeWaterContent f).waterConfidence
    ∧ (analyzeWaterContent f).waterConfidence ≤ 1 := by
  obtain ⟨hp0, hp1⟩ := waterPercentage_mem hgt wdt f
  obtain ⟨hc0, hc1⟩ := waterConfidence_mem hgt wdt f
  exact ⟨hp0, hp1, hc0, hc1⟩

/-- On the all-zero frame both gradients vanish, so the edge direction
(arctan2(0, 0)) is 0 at the only pixel. -/
theorem zeroFrame_direction (p : Fin 1 × Fin 1) : edgeDirection zeroFrame p = 0 := by
  unfold edgeDirection zeroFrame
  have h : (⟨((0:ℚ):ℝ), ((0:ℚ):ℝ)⟩ : ℂ) = 0 := by
    apply Complex.ext <;> simp
  rw [h, Complex.arg_zero]

/-- On the all-zero frame the edge magnitude is 0 at the only pixel. -/
theorem zeroFrame_magnitude (p : Fin 1 × Fin 1) : edgeMagnitude zeroFrame p = 0 := by
  unfold edgeMagnitude zeroFrame
  simp

/-- C3 counterexample: on the all-zero 1×1 frame, the horizontal edge count is
1 (its direction 0 lies in the horizontal band) while no pixel exceeds the
magnitude threshold 30, so the direction counts do not include only
pixels above the threshold. -/
theorem direction_counts_ignore_magnitude :
    horizontalEdges zeroFrame = 1
    ∧ totalEdges zeroFrame = 0
    ∧ ¬(horizontalEdges zeroFrame ≤ totalEdges zeroFrame) := by
  have hh : horizontalEdges zeroFrame = 1 := by
    unfold horizontalEdges
    rw [Finset.filter_true_of_mem]
    · simp [Finset.card_univ]
    · intro p _
      rw [zeroFrame_direction p]
      norm_num
  have ht : totalEdges zeroFrame = 0 := by
    unfold totalEdges
    rw [Finset.filter_false_of_mem]
    · simp
    · intro p _
      rw [zeroFrame_magnitude p]
      norm_num
  exact ⟨hh, ht, by omega⟩

/-- C3 amended: the horizontal/vertical/diagonal counts classify every pixel
by direction alone (no magnitude condition — the counterexample shows they can
exceed total_edges), and water_edge_ratio equals
(horizontal + 0.8·vertical + 0.6·diagonal) / total_edges when some pixel
exceeds the magnitude threshold 30, and 0 otherwise. -/
theorem water_edge_ratio_formula (hgt wdt : ℕ) (f : FrameData hgt wdt) :
    (totalEdges f = 0 → (analyzeWaterContent f).waterEdgeRatio = 0)
    ∧ (0 < totalEdges f →
        (analyzeWaterContent f).waterEdgeRatio * (totalEdges f : ℝ)
          = (horizontalEdges f : ℝ) + 0.8 * (verticalEdges f : ℝ)
            + 0.6 * (diagonalEdges f : ℝ)) := by
  constructor
  · intro h
    show waterEdgeRatio f = 0
    unfold waterEdgeRatio
    rw [if_neg]
    omega
  · intro h
    show waterEdgeRatio f * (totalEdges f : ℝ) = _
    unfold waterEdgeRatio
    rw [if_pos h]
    have hc : ((totalEdges f : ℝ)) ≠ 0 := by
      exact_mod_cast Nat.pos_iff_ne_zero.mp h
    rw [div_mul_cancel₀ _ hc]
    unfold waterEdges
    ring

/-- On the horizontal-gradient frame the edge direction is 0 (arctan2(0, 100))
at the only pixel. -/
theorem gradFrame_direction (p : Fin 1 × Fin 1) : edgeDirection gradFrame p = 0 := by
  unfold edgeDirection gradFrame
  have h : (⟨((100:ℚ):ℝ), ((0:ℚ):ℝ)⟩ : ℂ) = ((100:ℝ) : ℂ) := by
    apply Complex.ext <;> simp
  rw [h, Complex.arg_ofReal_of_nonneg (by norm_num)]

/-- On the horizontal-gradient frame the edge magnitude is 100 at the only
pixel. -/
theorem gradFrame_magnitude (p : Fin 1 × Fin 1) : edgeMagnitude gradFrame p = 100 := by
  unfold edgeMagnitude gradFrame
  have h : (((100:ℚ):ℝ)) ^ 2 + (((0:ℚ):ℝ)) ^ 2 = (100:ℝ) ^ 2 := by
    norm_num
  rw [h, Real.sqrt_sq (by norm_num)]

/-- The horizontal-gradient frame has one pixel above the magnitude
threshold. -/
theorem gradFrame_totalEdges : totalEdges gradFrame = 1 := by
  unfold totalEdges
  rw [Finset.filter_true_of_mem]
  · simp [Finset.card_univ]
  · intro p _
    rw [gradFrame_magnitude p]
    norm_num

/-- Witness for C3 at a concrete input: the horizontal-gradient frame has a
positive thresholded edge count, and its ratio satisfies the amended
formula. -/
theorem water_edge_ratio_formula_witness :
    0 < totalEdges gradFrame
    ∧ (analyzeWaterContent gradFrame).waterEdgeRatio * (totalEdges gradFrame : ℝ)
        = (horizontalEdges gradFrame : ℝ) + 0.8 * (verticalEdges gradFrame : ℝ)
          + 0.6 * (diagonalEdges gradFrame : ℝ) := by
  have htpos : 0 < totalEdges gradFrame := by
    rw [gradFrame_totalEdges]
    omega
  exact ⟨htpos, (water_edge_ratio_formula 0 0 gradFrame).2 htpos⟩
